import Mathlib

/-!
Verification development for the emergency call-center dashboard's data
pipeline (modules `src/config/settings.py`, `src/utils/helpers.py`,
`src/utils/data_processor.py`, `src/utils/data_loader.py`).

The dataframes of the Python code are embedded as lists of typed rows: a
daily-record dataframe (columns DATE, Semaine épidémiologique,
TOTAL_APPELS_JOUR and the 17 category columns of
`settings.CATEGORIES_APPELS`) becomes `List Jour`.  Column access by name
becomes `valeurCategorie`.  Python dicts (which preserve insertion order)
become association lists, Python exceptions become `Except String`, float
arithmetic on exact small quantities becomes `ℚ`, and `print` side effects
of the loader become an explicit `journal : List String` in its result.
-/

namespace Dashboard

/-- `settings.CATEGORIES_APPELS` : the 17 category column names. -/
def CATEGORIES_APPELS : List String :=
  [ "CSU_JOUR",
    "PHARMACIE_JOUR",
    "STRUCTURE_REFERENCE_JOUR",
    "PROGRAMME_SANTE_JOUR",
    "RUMEURS_JOUR",
    "PROBLEMATIQUE_SANTE_JOUR",
    "URGENCE_MEDICALE_JOUR",
    "GESTION_MALADIE_JOUR",
    "AUTRES_JOUR",
    "SOCIAL_JOUR",
    "SECURITAIRE_JOUR",
    "PSYCHO_JOUR",
    "SIGNAUX_SFE_JOUR",
    "AUTRES_SANTE_PUBLIQUE_JOUR",
    "CAS_SUSPECTS_JOUR",
    "FARCES_JOUR",
    "HARCELEMENTS_JOUR" ]

/-- `settings.LABELS_CATEGORIES.get(c, c)` : display label of a category,
defaulting to the category name itself. -/
def LABELS_CATEGORIES (c : String) : String :=
  if c = "CSU_JOUR" then "Couverture Santé Universelle"
  else if c = "PHARMACIE_JOUR" then "Informations Pharmacie"
  else if c = "STRUCTURE_REFERENCE_JOUR" then "Structures de Référence"
  else if c = "PROGRAMME_SANTE_JOUR" then "Programmes de Santé"
  else if c = "RUMEURS_JOUR" then "Rumeurs Sanitaires"
  else if c = "PROBLEMATIQUE_SANTE_JOUR" then "Problématiques de Santé"
  else if c = "URGENCE_MEDICALE_JOUR" then "Urgences Médicales"
  else if c = "GESTION_MALADIE_JOUR" then "Gestion de Maladies"
  else if c = "AUTRES_JOUR" then "Autres Appels"
  else if c = "SOCIAL_JOUR" then "Questions Sociales"
  else if c = "SECURITAIRE_JOUR" then "Questions Sécuritaires"
  else if c = "PSYCHO_JOUR" then "Soutien Psychologique"
  else if c = "SIGNAUX_SFE_JOUR" then "Signaux de Surveillance Épidémiologique"
  else if c = "AUTRES_SANTE_PUBLIQUE_JOUR" then "Autres Santé Publique"
  else if c = "CAS_SUSPECTS_JOUR" then "Cas Suspects"
  else if c = "FARCES_JOUR" then "Appels Farces"
  else if c = "HARCELEMENTS_JOUR" then "Appels de Harcèlement"
  else c

/-- `settings.REGROUPEMENTS` : the 5 thematic groups (insertion-ordered
dict, embedded as an association list). -/
def REGROUPEMENTS : List (String × List String) :=
  [ ("Renseignements Santé",
      [ "CSU_JOUR", "PHARMACIE_JOUR", "STRUCTURE_REFERENCE_JOUR",
        "PROGRAMME_SANTE_JOUR", "RUMEURS_JOUR", "PROBLEMATIQUE_SANTE_JOUR" ]),
    ("Assistances Médicales",
      [ "URGENCE_MEDICALE_JOUR", "GESTION_MALADIE_JOUR", "AUTRES_JOUR" ]),
    ("Assistances Psycho-Sociales",
      [ "SOCIAL_JOUR", "SECURITAIRE_JOUR", "PSYCHO_JOUR" ]),
    ("Signaux",
      [ "SIGNAUX_SFE_JOUR", "AUTRES_SANTE_PUBLIQUE_JOUR", "CAS_SUSPECTS_JOUR" ]),
    ("Autres Appels",
      [ "FARCES_JOUR", "HARCELEMENTS_JOUR" ]) ]

/-- `settings.LABELS_REGROUPEMENTS.get(g, g)` : display label of a group. -/
def LABELS_REGROUPEMENTS (g : String) : String :=
  if g = "Renseignements Santé" then "Renseignements Santé"
  else if g = "Assistances Médicales" then "Assistances Médicales"
  else if g = "Assistances Psycho-Sociales" then "Assistances Psycho-Sociales"
  else if g = "Signaux" then "Signaux d\x27Alerte"
  else if g = "Autres Appels" then "Autres Appels"
  else g

/-- One row of the daily-record dataframe: columns DATE (embedded as an
abstract ordinal), `Semaine épidémiologique`, TOTAL_APPELS_JOUR, and the
17 category columns of `CATEGORIES_APPELS` (plain Python ints, so `ℤ`). -/
structure Jour where
  date : Nat
  semaine : String
  totalJour : Int
  csu : Int
  pharmacie : Int
  structureReference : Int
  programmeSante : Int
  rumeurs : Int
  problematiqueSante : Int
  urgenceMedicale : Int
  gestionMaladie : Int
  autres : Int
  social : Int
  securitaire : Int
  psycho : Int
  signauxSfe : Int
  autresSantePublique : Int
  casSuspects : Int
  farces : Int
  harcelements : Int
deriving DecidableEq, Repr

/-- Column access `df[c]` on one row, for the 17 category columns.  Every
column of `CATEGORIES_APPELS` is present in the embedded schema, so the
`if col in df.columns` guards of the source are always true; a name
outside the schema reads as 0 (such a read never happens on the names the
configuration supplies). -/
def valeurCategorie (j : Jour) (c : String) : Int :=
  if c = "CSU_JOUR" then j.csu
  else if c = "PHARMACIE_JOUR" then j.pharmacie
  else if c = "STRUCTURE_REFERENCE_JOUR" then j.structureReference
  else if c = "PROGRAMME_SANTE_JOUR" then j.programmeSante
  else if c = "RUMEURS_JOUR" then j.rumeurs
  else if c = "PROBLEMATIQUE_SANTE_JOUR" then j.problematiqueSante
  else if c = "URGENCE_MEDICALE_JOUR" then j.urgenceMedicale
  else if c = "GESTION_MALADIE_JOUR" then j.gestionMaladie
  else if c = "AUTRES_JOUR" then j.autres
  else if c = "SOCIAL_JOUR" then j.social
  else if c = "SECURITAIRE_JOUR" then j.securitaire
  else if c = "PSYCHO_JOUR" then j.psycho
  else if c = "SIGNAUX_SFE_JOUR" then j.signauxSfe
  else if c = "AUTRES_SANTE_PUBLIQUE_JOUR" then j.autresSantePublique
  else if c = "CAS_SUSPECTS_JOUR" then j.casSuspects
  else if c = "FARCES_JOUR" then j.farces
  else if c = "HARCELEMENTS_JOUR" then j.harcelements
  else 0

/-- The sum of the 17 category counts of one row (the value
TOTAL_APPELS_JOUR is supposed to carry on a valid record). -/
def sommeCategoriesJour (j : Jour) : Int :=
  j.csu + j.pharmacie + j.structureReference + j.programmeSante + j.rumeurs
    + j.problematiqueSante + j.urgenceMedicale + j.gestionMaladie + j.autres
    + j.social + j.securitaire + j.psycho + j.signauxSfe
    + j.autresSantePublique + j.casSuspects + j.farces + j.harcelements

/-- A daily-record dataframe in which every row's TOTAL_APPELS_JOUR equals
the sum of its 17 category counts (the "valid daily-record" invariant the
loader establishes when it recomputes the total). -/
def DfValide (df : List Jour) : Prop :=
  ∀ j ∈ df, j.totalJour = sommeCategoriesJour j

instance (df : List Jour) : Decidable (DfValide df) := by
  unfold DfValide; infer_instance

/-- An all-zero row, base for building concrete test rows. -/
def jourZero : Jour :=
  { date := 0, semaine := "", totalJour := 0, csu := 0, pharmacie := 0,
    structureReference := 0, programmeSante := 0, rumeurs := 0,
    problematiqueSante := 0, urgenceMedicale := 0, gestionMaladie := 0,
    autres := 0, social := 0, securitaire := 0, psycho := 0,
    signauxSfe := 0, autresSantePublique := 0, casSuspects := 0,
    farces := 0, harcelements := 0 }
/-! ## Generic helpers: Python int parsing, stable key sort, keep-first dedup -/

/-- The whitespace characters `str.strip()` removes (ASCII fragment). -/
def estEspacePython (c : Char) : Bool :=
  c == ' ' || c == '\t' || c == '\n' || c == '\r' || c == '\x0B' || c == '\x0C'

/-- Reads a run of ASCII digits, accumulating their base-10 value;
`none` on any non-digit. -/
def lireChiffresAux (acc : Nat) : List Char → Option Nat
  | [] => some acc
  | c :: cs => if c.isDigit then lireChiffresAux (10 * acc + (c.toNat - 48)) cs else none

/-- Digit-sequence reading: `some` of the base-10 value when the list is a
non-empty run of ASCII digits, `none` otherwise. -/
def lireChiffres? : List Char → Option Nat
  | [] => none
  | c :: cs => lireChiffresAux 0 (c :: cs)

/-- Base-10 value of a digit-character list (most significant first). -/
def valeurChiffres (cs : List Char) : Nat :=
  cs.foldl (fun acc c => 10 * acc + (c.toNat - 48)) 0

/-- Strip leading and trailing whitespace, as `int(...)` does. -/
def bandePython (cs : List Char) : List Char :=
  ((cs.dropWhile estEspacePython).reverse.dropWhile estEspacePython).reverse

/-- Python `int(s)` on a string: strip whitespace, optional sign, then a
non-empty digit run; `none` models the `ValueError`. -/
def pyInt? (s : String) : Option Int :=
  match bandePython s.toList with
  | [] => none
  | c :: reste =>
      if c = '-' then (lireChiffres? reste).map (fun n => -(n : Int))
      else if c = '+' then (lireChiffres? reste).map (fun n => (n : Int))
      else (lireChiffres? (c :: reste)).map (fun n => (n : Int))

/-- `helpers.extraire_numero_semaine` on a string argument: the part of
the label before the first underscore, with every `S`/`s` removed, parsed
as an int; 0 when there is no underscore or the parse fails. -/
def extraire_numero_semaine (label : String) : Int :=
  if '_' ∈ label.toList then
    let partie := label.toList.takeWhile (fun c => !(c == '_'))
    let numero := partie.filter (fun c => !(c == 'S' || c == 's'))
    match pyInt? (String.mk numero) with
    | some k => k
    | none => 0
  else 0

/-- `helpers.extraire_numero_semaine` on an arbitrary Python value:
`none` stands for a non-string argument, which the
`isinstance(semaine_label, str)` guard sends to 0. -/
def extraire_numero_semaine_py (v : Option String) : Int :=
  match v with
  | none => 0
  | some s => extraire_numero_semaine s

/-- The decimal digit characters of `k`, most significant first. -/
def chaineChiffres (k : Nat) : List Char :=
  ((Nat.digits 10 k).map Nat.digitChar).reverse

/-- A well-formed week label `S<k>_<annee>`. -/
def etiquetteSemaine (k : Nat) (annee : String) : String :=
  "S" ++ String.mk (chaineChiffres k) ++ "_" ++ annee

/-- Code-point lexicographic comparison of character lists, the order
pandas uses on string group keys. -/
def leListeChar : List Char → List Char → Bool
  | [], _ => true
  | _ :: _, [] => false
  | a :: as, b :: bs =>
      if a.toNat < b.toNat then true
      else if b.toNat < a.toNat then false
      else leListeChar as bs

/-- Lexicographic comparison of week labels. -/
def leEtiquette (a b : String) : Bool := leListeChar a.toList b.toList

/-- Insert into a sorted list, before the first element the new one
compares `leb` to (so the overall sort is stable). -/
def insererParRel {α : Type} (leb : α → α → Bool) (x : α) :
    List α → List α
  | [] => [x]
  | y :: ys => if leb x y then x :: y :: ys else y :: insererParRel leb x ys

/-- Stable insertion sort by a Boolean comparison, the embedding of the
dataframe sorts (`groupby`'s key ordering and `sort_values`). -/
def triParRel {α : Type} (leb : α → α → Bool) : List α → List α
  | [] => []
  | x :: xs => insererParRel leb x (triParRel leb xs)

/-- Keep-first deduplication by a key: the embedding of
`drop_duplicates(subset=[...], keep='first')` and of `groupby`'s unique
key extraction. -/
def uniqueParCle {α β : Type} [DecidableEq β] (cle : α → β) : List α → List α
  | [] => []
  | x :: xs => x :: (uniqueParCle cle xs).filter (fun y => !(cle y == cle x))


/-! ## `data_processor.py` : aggregation, weekly totals, variations -/

/-- Column sum `df[c].sum()` over the rows of a (sub)dataframe. -/
def colSomme (df : List Jour) (c : String) : Int :=
  (df.map (fun j => valeurCategorie j c)).sum

/-- Floor of a rational, written with Euclidean integer division so that
it evaluates; equal to `⌊q⌋` since denominators are positive. -/
def plancherRat (q : ℚ) : Int := q.num / (q.den : Int)

/-- Python `round(x, 2)` (round half to even at two decimal places),
modelled exactly over `ℚ`; the source applies it to small exact
quantities. -/
def pyRound2 (q : ℚ) : ℚ :=
  let x := q * 100
  let fl := plancherRat x
  let fr := x - (fl : ℚ)
  let n : Int :=
    if fr < 1 / 2 then fl
    else if 1 / 2 < fr then fl + 1
    else if fl % 2 = 0 then fl else fl + 1
  (n : ℚ) / 100

/-- One row of the weekly dataframe produced by
`calculer_totaux_hebdomadaires`: the week label, the 17 renamed
`*_SEMAINE` columns in configuration order, and TOTAL_APPELS_SEMAINE. -/
structure Hebdo where
  semaine : String
  colonnes : List (String × Int)
  totalSemaine : Int
deriving DecidableEq, Repr

/-- The `groupby`/sum/rename stage of `calculer_totaux_hebdomadaires`:
one row per distinct week label (`groupby` orders its keys
lexicographically; its two `raise` branches — missing week column, no
category column — cannot fire on the fixed schema, so the embedding is
total), every category summed and renamed `_JOUR` → `_SEMAINE`, plus the
row total over the 17 renamed columns. -/
def lignesHebdo (df : List Jour) : List Hebdo :=
  (triParRel leEtiquette (uniqueParCle id (df.map (fun j => j.semaine)))).map (fun s =>
    let groupe := df.filter (fun j => j.semaine == s)
    let cols := CATEGORIES_APPELS.map
      (fun c => (c.replace "_JOUR" "_SEMAINE", colSomme groupe c))
    { semaine := s, colonnes := cols,
      totalSemaine := (cols.map Prod.snd).sum : Hebdo })

/-- The `sort_values('_sort_key')` comparison: ascending numeric week
index. -/
def leNumeroSemaine (a b : Hebdo) : Bool :=
  decide (extraire_numero_semaine a.semaine ≤ extraire_numero_semaine b.semaine)

/-- `data_processor.calculer_totaux_hebdomadaires` : the grouped rows of
`lignesHebdo`, re-sorted by the numeric week index
`extraire_numero_semaine`. -/
def calculer_totaux_hebdomadaires (df : List Jour) : List Hebdo :=
  triParRel leNumeroSemaine (lignesHebdo df)

/-- `data_processor.calculer_regroupements` : total per thematic group,
an insertion-ordered dict keyed by the group's display label.  Every
configured category is a column of the fixed schema, so the
`categories_existantes` filter of the source keeps them all. -/
def calculer_regroupements (df : List Jour) : List (String × Int) :=
  REGROUPEMENTS.map (fun gc =>
    (LABELS_REGROUPEMENTS gc.1, (gc.2.map (colSomme df)).sum))

/-- The dict returned by `data_processor.calculer_totaux_semaine`. -/
structure ResultatSemaine where
  semaine : String
  total : Int
  categories : List (String × Int)
  regroupements : List (String × Int)
  nbJours : Nat
  moyenneJour : ℚ
  dateDebut : Option Nat
  dateFin : Option Nat
deriving DecidableEq, Repr

/-- `data_processor.calculer_totaux_semaine` : filter to one week,
`ValueError` when no row matches, otherwise total, the non-zero
categories under their display labels (insertion order of
`CATEGORIES_APPELS`), the group roll-up, day count, rounded daily
average, and the date range. -/
def calculer_totaux_semaine (df : List Jour) (semaine : String) :
    Except String ResultatSemaine :=
  let dfSemaine := df.filter (fun j => j.semaine == semaine)
  if dfSemaine.length = 0 then
    .error ("Aucune donnée trouvée pour la semaine " ++ semaine)
  else
    let total : Int := (dfSemaine.map (fun j => j.totalJour)).sum
    let categories := CATEGORIES_APPELS.filterMap (fun c =>
      let valeur := colSomme dfSemaine c
      if 0 < valeur then some (LABELS_CATEGORIES c, valeur) else none)
    let nbJours := dfSemaine.length
    let moyenneJour : ℚ := if 0 < nbJours then (total : ℚ) / (nbJours : ℚ) else 0
    .ok { semaine := semaine, total := total, categories := categories,
          regroupements := calculer_regroupements dfSemaine,
          nbJours := nbJours, moyenneJour := pyRound2 moyenneJour,
          dateDebut := (dfSemaine.map (fun j => j.date)).min?,
          dateFin := (dfSemaine.map (fun j => j.date)).max? }

/-- Lookup `d.get(k, defaut)` in an insertion-ordered dict. -/
def chercheDict (d : List (String × Int)) (k : String) (defaut : Int) : Int :=
  match d.find? (fun p => p.1 == k) with
  | some p => p.2
  | none => defaut

/-- One per-category (or per-group) entry of the variations dict. -/
structure VariationEntree where
  actuel : Int
  precedent : Int
  variationAbsolue : Int
  variationRelative : ℚ
deriving DecidableEq, Repr

/-- The entry `calculer_variations` builds for one category or group:
kept only when at least one of the two values is positive; the relative
variation divides by the baseline when it is non-zero and is the constant
100 otherwise. -/
def entreeVariation (va vp : Int) : Option VariationEntree :=
  if 0 < va ∨ 0 < vp then
    some { actuel := va, precedent := vp, variationAbsolue := va - vp,
           variationRelative :=
             pyRound2 (if vp ≠ 0 then ((va - vp : ℚ) / (vp : ℚ)) * 100 else 100) }
  else none

/-- The dict returned by `data_processor.calculer_variations`. -/
structure Variations where
  semaineActuelle : String
  semainePrecedente : String
  totalActuel : Int
  totalPrecedent : Int
  variationAbsolue : Int
  variationRelative : ℚ
  tendance : String
  categories : List (String × VariationEntree)
  regroupements : List (String × VariationEntree)
deriving DecidableEq, Repr

/-- `data_processor.calculer_variations` : totals of the two weeks (their
`ValueError`s propagate), total variation — whose relative form is the
constant 0 when the baseline total is zero —, the ±2% trend classifier on
the unrounded value, and the per-category and per-group entries. -/
def calculer_variations (df : List Jour) (semaineActuelle semainePrecedente : String) :
    Except String Variations :=
  match calculer_totaux_semaine df semaineActuelle with
  | .error e => .error e
  | .ok totauxActuel =>
  match calculer_totaux_semaine df semainePrecedente with
  | .error e => .error e
  | .ok totauxPrecedent =>
  let totalActuel := totauxActuel.total
  let totalPrecedent := totauxPrecedent.total
  let variationAbs := totalActuel - totalPrecedent
  let variationRel : ℚ :=
    if totalPrecedent ≠ 0 then ((variationAbs : ℚ) / (totalPrecedent : ℚ)) * 100 else 0
  let tendance :=
    if |variationRel| < 2 then "stable"
    else if 0 < variationRel then "hausse" else "baisse"
  let categories := CATEGORIES_APPELS.filterMap (fun c =>
    let label := LABELS_CATEGORIES c
    (entreeVariation (chercheDict totauxActuel.categories label 0)
        (chercheDict totauxPrecedent.categories label 0)).map (fun e => (label, e)))
  let regroupements := (REGROUPEMENTS.map Prod.fst).filterMap (fun g =>
    let label := LABELS_REGROUPEMENTS g
    (entreeVariation (chercheDict totauxActuel.regroupements label 0)
        (chercheDict totauxPrecedent.regroupements label 0)).map (fun e => (label, e)))
  .ok { semaineActuelle := semaineActuelle,
         semainePrecedente := semainePrecedente,
         totalActuel := totalActuel, totalPrecedent := totalPrecedent,
         variationAbsolue := variationAbs,
         variationRelative := pyRound2 variationRel,
         tendance := tendance, categories := categories,
         regroupements := regroupements }

/-- Total of one thematic group over one week's rows, the cell value of
`comparer_periodes`. -/
def valeurGroupeSemaine (df : List Jour) (cats : List String) (s : String) : Int :=
  (cats.map (colSomme (df.filter (fun j => j.semaine == s)))).sum

/-- One row of the comparison table of `comparer_periodes`: the
`Catégorie` cell and the cells of the requested week columns in request
order (pandas would collapse duplicate week labels into one column; the
row structure, which the claims are about, is unaffected). -/
structure LigneComparaison where
  categorie : String
  valeurs : List Int
deriving DecidableEq, Repr

/-- `data_processor.comparer_periodes` (v2.2) : one row per thematic
group with the group's total per requested week, then a trailing TOTAL
row summing each week column over the five group rows. -/
def comparer_periodes (df : List Jour) (listeSemaines : List String) :
    List LigneComparaison :=
  let lignes := REGROUPEMENTS.map (fun gc =>
    { categorie := LABELS_REGROUPEMENTS gc.1,
      valeurs := listeSemaines.map (valeurGroupeSemaine df gc.2) : LigneComparaison })
  lignes ++ [{ categorie := "TOTAL",
               valeurs := (List.range listeSemaines.length).map (fun i =>
                 (lignes.map (fun l => l.valeurs.getD i 0)).sum) }]

/-! ## `data_loader.py` : column validation and full load -/

/-- `colonnes_requises` of `charger_donnees_appels` (line 75) : DATE plus
the 17 category columns. -/
def colonnes_requises : List String := "DATE" :: CATEGORIES_APPELS

/-- `colonnes_manquantes` of `charger_donnees_appels` (line 76) : the
required columns absent from the uploaded sheet. -/
def colonnes_manquantes (colonnes : List String) : List String :=
  colonnes_requises.filter (fun c => !(colonnes.contains c))

/-- Validation stage (lines 74–81) of `data_loader.charger_donnees_appels`
on the column set of the uploaded sheet: the upload is rejected with a
`ValueError` listing the missing columns when any required column is
absent.  The preceding file read and the following coercions are I/O on
the accepted frame; the exception propagates to the caller — the source
has no retry path. -/
def charger_donnees_appels_validation (colonnes : List String) :
    Except String Unit :=
  if colonnes_manquantes colonnes = [] then .ok ()
  else .error ("Colonnes manquantes dans le fichier : "
      ++ String.intercalate ", " (colonnes_manquantes colonnes))

/-- One row of the expanded, date-deduplicated calendar returned by
`charger_calendrier_epidemiologique`. -/
structure EntreeCalendrier where
  date : Nat
  semaine : String
deriving DecidableEq, Repr

/-- Step 3 of `charger_toutes_les_donnees`: drop the week column and
left-merge the calendar's label on DATE (the calendar is already
deduplicated by date, making the merge one-to-one); dates with no
calendar row fall back to the locally computed ISO label, supplied here
as the function `etiquetteIso` standing for
`'S' + isocalendar().week + '_' + year` of the opaque date ordinal. -/
def fusionCalendrier (etiquetteIso : Nat → String) (appels : List Jour)
    (calendrier : List EntreeCalendrier) : List Jour :=
  appels.map (fun j =>
    { j with semaine :=
        match calendrier.find? (fun e => e.date == j.date) with
        | some e => e.semaine
        | none => etiquetteIso j.date })

/-- One row of the weekly aggregate built inside
`charger_toutes_les_donnees` (the `agg_dict` version: per-week category
sums, date range, day count, weekly total). -/
structure HebdoCharge where
  semaine : String
  colonnes : List (String × Int)
  dateDebut : Option Nat
  dateFin : Option Nat
  nbJours : Nat
  totalSemaine : Int
deriving DecidableEq, Repr

/-- Step 5 of `charger_toutes_les_donnees`: group the deduplicated rows
by week label (`groupby` key order, no numeric re-sort here, unlike
`calculer_totaux_hebdomadaires`), sum the categories, aggregate DATE by
min/max/count and TOTAL_APPELS_JOUR by sum, and rename. -/
def agregationHebdo (df : List Jour) : List HebdoCharge :=
  (triParRel leEtiquette (uniqueParCle id (df.map (fun j => j.semaine)))).map (fun s =>
    let groupe := df.filter (fun j => j.semaine == s)
    { semaine := s,
      colonnes := CATEGORIES_APPELS.map
        (fun c => (c.replace "_JOUR" "_SEMAINE", colSomme groupe c)),
      dateDebut := (groupe.map (fun j => j.date)).min?,
      dateFin := (groupe.map (fun j => j.date)).max?,
      nbJours := groupe.length,
      totalSemaine := (groupe.map (fun j => j.totalJour)).sum })

/-- The `statistiques` dict of `charger_toutes_les_donnees` (means of an
empty frame, NaN in pandas, are modelled as 0; no claim consumes them). -/
structure Statistiques where
  nbJours : Nat
  nbSemaines : Nat
  totalAppels : Int
  moyenneJour : ℚ
  moyenneSemaine : ℚ
  dateMin : Option Nat
  dateMax : Option Nat
deriving DecidableEq, Repr

/-- The dict returned by `charger_toutes_les_donnees`, plus `journal`,
the warning lines the function prints (informational progress prints are
elided; `appels` is the original merged frame, duplicates included, as
the source returns). -/
structure ChargementComplet where
  appels : List Jour
  calendrier : List EntreeCalendrier
  hebdomadaire : List HebdoCharge
  statistiques : Statistiques
  journal : List String
deriving DecidableEq, Repr

/-- `data_loader.charger_toutes_les_donnees`, from the two loaded frames
(steps 1–2, the file reads, are I/O): merge the calendar week labels,
warn when some date had none, drop duplicate dates keeping the first
occurrence and warn with the removed count, aggregate per week, and
return the original merged frame with the aggregate and statistics. -/
def charger_toutes_les_donnees (etiquetteIso : Nat → String)
    (appelsCharges : List Jour) (calendrier : List EntreeCalendrier) :
    ChargementComplet :=
  let dfAppels := fusionCalendrier etiquetteIso appelsCharges calendrier
  let avertissementSemaines : List String :=
    if appelsCharges.any
        (fun j => (calendrier.find? (fun e => e.date == j.date)).isNone) then
      ["⚠️ Certaines dates n\x27ont pas de semaine dans le calendrier"]
    else []
  let dfUnique := uniqueParCle (fun j => j.date) dfAppels
  let avertissementDoublons : List String :=
    if dfAppels.length ≠ dfUnique.length then
      ["⚠️ " ++ toString (dfAppels.length - dfUnique.length)
        ++ " doublons de dates supprimés"]
    else []
  let dfHebdo := agregationHebdo dfUnique
  let totalJournalier := (dfUnique.map (fun j => j.totalJour)).sum
  { appels := dfAppels,
    calendrier := calendrier,
    hebdomadaire := dfHebdo,
    statistiques :=
      { nbJours := dfUnique.length,
        nbSemaines := dfHebdo.length,
        totalAppels := totalJournalier,
        moyenneJour :=
          if dfUnique.length ≠ 0 then
            (totalJournalier : ℚ) / (dfUnique.length : ℚ)
          else 0,
        moyenneSemaine :=
          if dfHebdo.length ≠ 0 then
            (((dfHebdo.map (fun h => h.totalSemaine)).sum : Int) : ℚ)
              / (dfHebdo.length : ℚ)
          else 0,
        dateMin := (dfUnique.map (fun j => j.date)).min?,
        dateMax := (dfUnique.map (fun j => j.date)).max? },
    journal := avertissementSemaines ++ avertissementDoublons }

/-! ## Concrete rows and frames used by witnesses and counterexamples -/

/-- A day of week S1_2025 with 3 CSU calls and 2 prank calls. -/
def jourTemoinA : Jour :=
  { jourZero with
      date := 1, semaine := "S1_2025", csu := 3, farces := 2, totalJour := 5 }

/-- A second day of week S1_2025 with 4 social calls. -/
def jourTemoinB : Jour :=
  { jourZero with
      date := 2, semaine := "S1_2025", social := 4, totalJour := 4 }

/-- A valid two-day frame for week S1_2025. -/
def dfTemoin : List Jour := [jourTemoinA, jourTemoinB]

/-- The scenario frame of the spec: two days of week S10_2025 with
CSU_JOUR counts 10 and 20 and every other category zero. -/
def dfScenarioS10 : List Jour :=
  [ { jourZero with
        date := 1, semaine := "S10_2025", csu := 10, totalJour := 10 },
    { jourZero with
        date := 2, semaine := "S10_2025", csu := 20, totalJour := 20 } ]

/-- A frame whose week S1_2025 is all-zero while week S2_2025 has 5 CSU
calls: a zero baseline with a non-zero current week. -/
def dfBaseZero : List Jour :=
  [ { jourZero with
        date := 1, semaine := "S1_2025" },
    { jourZero with
        date := 2, semaine := "S2_2025", csu := 5, totalJour := 5 } ]

/-- A frame listing week S10_2025 before week S9_2025. -/
def dfDeuxSemaines : List Jour :=
  [ { jourZero with
        date := 1, semaine := "S10_2025", csu := 1, totalJour := 1 },
    { jourZero with
        date := 2, semaine := "S9_2025", csu := 2, totalJour := 2 } ]

/-- A frame with week 50 of 2024 followed by week 1 of 2025. -/
def dfDeuxAnnees : List Jour :=
  [ { jourZero with
        date := 1, semaine := "S50_2024", csu := 1, totalJour := 1 },
    { jourZero with
        date := 2, semaine := "S1_2025", csu := 2, totalJour := 2 } ]

/-- A frame carrying the same date twice (a duplicate daily row). -/
def dfDoublons : List Jour :=
  [ { jourZero with
        date := 1, semaine := "S1_2025", csu := 3, totalJour := 3 },
    { jourZero with
        date := 1, semaine := "S1_2025", csu := 7, totalJour := 7 } ]

/-- The variations dict the code computes on `dfBaseZero` from week
S1_2025 (all zero) to week S2_2025 (5 CSU calls): the per-category and
per-group entries report 100%, the total reports 0%. -/
def variationsBaseZero : Variations :=
  { semaineActuelle := "S2_2025", semainePrecedente := "S1_2025",
    totalActuel := 5, totalPrecedent := 0, variationAbsolue := 5,
    variationRelative := 0, tendance := "stable",
    categories :=
      [ ("Couverture Santé Universelle",
          { actuel := 5, precedent := 0, variationAbsolue := 5,
            variationRelative := 100 }) ],
    regroupements :=
      [ ("Renseignements Santé",
          { actuel := 5, precedent := 0, variationAbsolue := 5,
            variationRelative := 100 }) ] }

/-! ## General lemmas about the sort, the dedup and the sums -/

theorem mem_insererParRel {α : Type} (leb : α → α → Bool) (x : α)
    (l : List α) (a : α) : a ∈ insererParRel leb x l ↔ a = x ∨ a ∈ l := by
  induction l with
  | nil => simp [insererParRel]
  | cons y ys ih =>
      by_cases h : leb x y = true
      · simp [insererParRel, h]
      · simp [insererParRel, h, ih]
        tauto

theorem pairwise_insererParRel {α : Type} (leb : α → α → Bool)
    (htot : ∀ a b, leb a b = false → leb b a = true)
    (htrans : ∀ a b c, leb a b = true → leb b c = true → leb a c = true)
    (x : α) (l : List α) (hl : l.Pairwise (fun a b => leb a b = true)) :
    (insererParRel leb x l).Pairwise (fun a b => leb a b = true) := by
  induction l with
  | nil => simp [insererParRel]
  | cons y ys ih =>
      rcases List.pairwise_cons.mp hl with ⟨hy, hys⟩
      rw [insererParRel]
      by_cases h : leb x y = true
      · rw [if_pos h]
        refine List.pairwise_cons.mpr ⟨?_, hl⟩
        intro b hb
        rcases List.mem_cons.mp hb with rfl | hb
        · exact h
        · exact htrans x y b h (hy b hb)
      · rw [if_neg h]
        refine List.pairwise_cons.mpr ⟨?_, ih hys⟩
        intro b hb
        rcases (mem_insererParRel leb x ys b).mp hb with rfl | hb
        · exact htot _ y (by simpa using h)
        · exact hy b hb

theorem mem_triParRel {α : Type} (leb : α → α → Bool) (l : List α)
    (a : α) : a ∈ triParRel leb l ↔ a ∈ l := by
  induction l with
  | nil => simp [triParRel]
  | cons x xs ih => simp [triParRel, mem_insererParRel, ih]

theorem pairwise_triParRel {α : Type} (leb : α → α → Bool)
    (htot : ∀ a b, leb a b = false → leb b a = true)
    (htrans : ∀ a b c, leb a b = true → leb b c = true → leb a c = true)
    (l : List α) : (triParRel leb l).Pairwise (fun a b => leb a b = true) := by
  induction l with
  | nil => simp [triParRel]
  | cons x xs ih => exact pairwise_insererParRel leb htot htrans x _ ih

/-- In a sorted list, a row the comparison puts strictly below another
sits at a strictly smaller index (shared by the weekly-sort claims). -/
theorem idx_lt_of_rel {α : Type} (leb : α → α → Bool) (l : List α)
    (hl : l.Pairwise (fun a b => leb a b = true))
    (i j : Nat) (a b : α) (ha : l[i]? = some a) (hb : l[j]? = some b)
    (hab : leb a b = true) (hba : leb b a = false) : i < j := by
  rcases lt_trichotomy i j with h | h | h
  · exact h
  · subst h
    rw [ha] at hb
    cases hb
    rw [hab] at hba
    cases hba
  · exfalso
    have hj : j < l.length := (List.getElem?_eq_some.mp hb).1
    have hi : i < l.length := (List.getElem?_eq_some.mp ha).1
    have hp := (List.pairwise_iff_getElem.mp hl) j i hj hi h
    rw [List.getElem?_eq_some.mp ha |>.2] at hp
    rw [List.getElem?_eq_some.mp hb |>.2] at hp
    rw [hp] at hba
    cases hba

theorem sublist_uniqueParCle {α β : Type} [DecidableEq β] (cle : α → β) :
    ∀ l : List α, (uniqueParCle cle l).Sublist l
  | [] => by simp [uniqueParCle]
  | x :: xs => by
      rw [uniqueParCle]
      exact List.Sublist.cons₂ x
        ((List.filter_sublist _).trans (sublist_uniqueParCle cle xs))

theorem pairwise_cle_uniqueParCle {α β : Type} [DecidableEq β] (cle : α → β) :
    ∀ l : List α, (uniqueParCle cle l).Pairwise (fun a b => cle a ≠ cle b)
  | [] => by simp [uniqueParCle]
  | x :: xs => by
      rw [uniqueParCle]
      refine List.pairwise_cons.mpr ⟨?_, ?_⟩
      · intro b hb
        have := List.of_mem_filter hb
        simp only [Bool.not_eq_true', beq_eq_false_iff_ne, ne_eq] at this
        exact fun h => this h.symm
      · exact (pairwise_cle_uniqueParCle cle xs).filter _

theorem cle_mem_uniqueParCle {α β : Type} [DecidableEq β] (cle : α → β) :
    ∀ (l : List α) (b : β),
      b ∈ (uniqueParCle cle l).map cle ↔ b ∈ l.map cle
  | [], b => by simp [uniqueParCle]
  | x :: xs, b => by
      rw [uniqueParCle]
      simp only [List.map_cons, List.mem_cons]
      constructor
      · rintro (h | h)
        · exact Or.inl h
        · rcases List.mem_map.mp h with ⟨a, ha, rfl⟩
          exact Or.inr ((cle_mem_uniqueParCle cle xs (cle a)).mp
            (List.mem_map_of_mem cle (List.mem_of_mem_filter ha)))
      · rintro (h | h)
        · exact Or.inl h
        · rcases List.mem_map.mp ((cle_mem_uniqueParCle cle xs b).mpr h)
            with ⟨a, ha, rfl⟩
          by_cases hx : cle a = cle x
          · exact Or.inl hx
          · exact Or.inr (List.mem_map_of_mem cle
              (List.mem_filter.mpr ⟨ha, by simp [hx]⟩))

/-- Every kept row is the first occurrence of its key in the input. -/
theorem find_uniqueParCle {α β : Type} [DecidableEq β] (cle : α → β) :
    ∀ (l : List α) (a : α), a ∈ uniqueParCle cle l →
      l.find? (fun y => cle y == cle a) = some a
  | [], a => by simp [uniqueParCle]
  | x :: xs, a => by
      rw [uniqueParCle]
      intro ha
      rcases List.mem_cons.mp ha with rfl | ha
      · exact List.find?_cons_of_pos _ (by simp)
      · have hne : cle x ≠ cle a := by
          have := List.of_mem_filter ha
          simp only [Bool.not_eq_true', beq_eq_false_iff_ne, ne_eq] at this
          exact fun h => this h.symm
        rw [List.find?_cons_of_neg _ (by simpa using hne)]
        exact find_uniqueParCle cle xs a (List.mem_of_mem_filter ha)

/-- Exchange of the two sums: summing the per-category column totals
equals summing the per-row category totals. -/
theorem somme_colonnes (cats : List String) (l : List Jour) :
    (cats.map (colSomme l)).sum
      = (l.map (fun j => (cats.map (valeurCategorie j)).sum)).sum := by
  induction cats with
  | nil => simp
  | cons c cs ih =>
      simp only [List.map_cons, List.sum_cons, ih, colSomme]
      rw [← List.sum_map_add]

/-- On one row, summing the 17 configured columns reads off the 17
fields. -/
theorem somme_cats_ligne (j : Jour) :
    (CATEGORIES_APPELS.map (valeurCategorie j)).sum = sommeCategoriesJour j := by
  simp [CATEGORIES_APPELS, valeurCategorie, sommeCategoriesJour]
  ring

/-- On a valid dataframe, the sum of the 17 column totals of any filtered
subframe equals the sum of its TOTAL_APPELS_JOUR column. -/
theorem somme_colonnes_total (df : List Jour) (hv : DfValide df)
    (p : Jour → Bool) :
    (CATEGORIES_APPELS.map (colSomme (df.filter p))).sum
      = ((df.filter p).map (fun j => j.totalJour)).sum := by
  rw [somme_colonnes]
  refine congrArg List.sum (List.map_congr_left ?_)
  intro j hj
  rw [somme_cats_ligne]
  exact (hv j (List.mem_of_mem_filter hj)).symm

/-- Summing the per-group sums is summing over the concatenation of the
group category lists. -/
theorem somme_groupes (gs : List (String × List String)) (l : List Jour) :
    ((gs.map (fun gc => ((gc.2.map (colSomme l)).sum))).sum)
      = (((gs.map Prod.snd).flatten).map (colSomme l)).sum := by
  induction gs with
  | nil => simp
  | cons g gs ih => simp [ih]

/-- The five configured groups cover the 17 configured categories exactly,
in order. -/
theorem regroupements_couvrent_categories :
    (REGROUPEMENTS.map Prod.snd).flatten = CATEGORIES_APPELS := rfl

/-- The numeric week comparison is total. -/
theorem leNumeroSemaine_total (a b : Hebdo) (h : leNumeroSemaine a b = false) :
    leNumeroSemaine b a = true := by
  simp only [leNumeroSemaine, decide_eq_false_iff_not, decide_eq_true_eq] at *
  omega

/-- The numeric week comparison is transitive. -/
theorem leNumeroSemaine_trans (a b c : Hebdo) (h1 : leNumeroSemaine a b = true)
    (h2 : leNumeroSemaine b c = true) : leNumeroSemaine a c = true := by
  simp only [leNumeroSemaine, decide_eq_true_eq] at *
  omega

/-! ## The claims -/

/-- C2 : for every daily-record dataframe in which each row's
TOTAL_APPELS_JOUR equals the sum of its 17 category counts, every row of
`calculer_totaux_hebdomadaires` has TOTAL_APPELS_SEMAINE equal to the sum
of TOTAL_APPELS_JOUR over the daily rows carrying that row's week label. -/
theorem totaux_hebdo_somme_des_jours (df : List Jour) (hv : DfValide df) :
    ∀ h ∈ calculer_totaux_hebdomadaires df,
      h.totalSemaine
        = ((df.filter (fun j => j.semaine == h.semaine)).map
            (fun j => j.totalJour)).sum := by
  intro h hmem
  rw [calculer_totaux_hebdomadaires, mem_triParRel, lignesHebdo] at hmem
  rcases List.mem_map.mp hmem with ⟨s, _, rfl⟩
  simp only [List.map_map]
  have hcomp :
      (Prod.snd ∘ fun c =>
          (c.replace "_JOUR" "_SEMAINE",
            colSomme (df.filter (fun j => j.semaine == s)) c))
        = colSomme (df.filter (fun j => j.semaine == s)) := rfl
  rw [hcomp, somme_colonnes_total df hv]

/-- Witness for C2 at a concrete two-day dataframe. -/
theorem totaux_hebdo_somme_des_jours_temoin :
    DfValide dfTemoin ∧
      ∀ h ∈ calculer_totaux_hebdomadaires dfTemoin,
        h.totalSemaine
          = ((dfTemoin.filter (fun j => j.semaine == h.semaine)).map
              (fun j => j.totalJour)).sum :=
  ⟨by decide, totaux_hebdo_somme_des_jours _ (by decide)⟩

/-- C3 : for every valid daily-record dataframe and every week label
present in it, the values of the `regroupements` dict of
`calculer_totaux_semaine` sum to its `total` field. -/
theorem totaux_semaine_regroupements_somme (df : List Jour) (s : String)
    (hv : DfValide df) (hex : ∃ j ∈ df, j.semaine = s) :
    ∃ r, calculer_totaux_semaine df s = .ok r ∧
      (r.regroupements.map Prod.snd).sum = r.total := by
  rcases hex with ⟨j, hj, hjs⟩
  have hne : (df.filter (fun x => x.semaine == s)).length ≠ 0 := by
    intro hlen
    rw [List.length_eq_zero] at hlen
    have : j ∈ df.filter (fun x => x.semaine == s) :=
      List.mem_filter.mpr ⟨hj, by simp [hjs]⟩
    simp [hlen] at this
  refine ⟨_, by rw [calculer_totaux_semaine, if_neg hne], ?_⟩
  simp only [calculer_regroupements, List.map_map]
  have hcomp :
      (Prod.snd ∘ fun gc =>
          (LABELS_REGROUPEMENTS gc.1,
            ((gc.2.map (colSomme (df.filter (fun x => x.semaine == s)))).sum)))
        = fun gc : String × List String =>
            ((gc.2.map (colSomme (df.filter (fun x => x.semaine == s)))).sum) := rfl
  rw [hcomp]
  have := somme_groupes REGROUPEMENTS (df.filter (fun x => x.semaine == s))
  simp only [List.map_map] at this ⊢
  rw [this, regroupements_couvrent_categories,
    somme_colonnes_total df hv]

/-- Witness for C3 at a concrete dataframe. -/
theorem totaux_semaine_regroupements_somme_temoin :
    ∃ r, calculer_totaux_semaine dfTemoin "S1_2025" = .ok r ∧
      (r.regroupements.map Prod.snd).sum = r.total :=
  totaux_semaine_regroupements_somme dfTemoin "S1_2025" (by decide)
    ⟨jourTemoinA, List.mem_cons_self _ _, rfl⟩

/-- C4 : `comparer_periodes` always returns exactly 6 rows — the five
thematic groups in configuration order, then a trailing TOTAL row —
whatever the dataframe and the requested week labels. -/
theorem comparer_periodes_six_lignes (df : List Jour) (sems : List String) :
    (comparer_periodes df sems).map (fun l => l.categorie)
        = ["Renseignements Santé", "Assistances Médicales",
           "Assistances Psycho-Sociales", "Signaux d\x27Alerte",
           "Autres Appels", "TOTAL"]
      ∧ (comparer_periodes df sems).length = 6 := by
  constructor
  · simp +decide [comparer_periodes, REGROUPEMENTS, LABELS_REGROUPEMENTS]
  · simp [comparer_periodes, REGROUPEMENTS]

/-- C6 : `calculer_totaux_semaine` raises the `ValueError` naming the week
exactly when no row carries the requested label, and returns normally
whenever at least one row matches. -/
theorem totaux_semaine_erreur_si_absente (df : List Jour) (s : String) :
    ((∀ j ∈ df, j.semaine ≠ s) →
      calculer_totaux_semaine df s
        = .error ("Aucune donnée trouvée pour la semaine " ++ s)) ∧
    ((∃ j ∈ df, j.semaine = s) →
      ∃ r, calculer_totaux_semaine df s = .ok r ∧ r.semaine = s) := by
  constructor
  · intro hnone
    rw [calculer_totaux_semaine, if_pos]
    rw [List.length_eq_zero, List.filter_eq_nil_iff]
    intro j hj
    simpa using hnone j hj
  · rintro ⟨j, hj, hjs⟩
    have hne : (df.filter (fun x => x.semaine == s)).length ≠ 0 := by
      intro hlen
      rw [List.length_eq_zero] at hlen
      have : j ∈ df.filter (fun x => x.semaine == s) :=
        List.mem_filter.mpr ⟨hj, by simp [hjs]⟩
      simp [hlen] at this
    exact ⟨_, by rw [calculer_totaux_semaine, if_neg hne], rfl⟩

/-- Witness for C6: the empty frame has no row for S1_2025, and a
one-row frame for S1_2025 returns normally. -/
theorem totaux_semaine_erreur_si_absente_temoin :
    calculer_totaux_semaine [] "S1_2025"
        = .error ("Aucune donnée trouvée pour la semaine " ++ "S1_2025")
      ∧ ∃ r, calculer_totaux_semaine dfTemoin "S1_2025" = .ok r ∧
          r.semaine = "S1_2025" :=
  ⟨(totaux_semaine_erreur_si_absente [] "S1_2025").1 (by simp),
   (totaux_semaine_erreur_si_absente dfTemoin "S1_2025").2
     ⟨jourTemoinA, List.mem_cons_self _ _, rfl⟩⟩

/-- C8 : when any required column (DATE or one of the 17 categories, e.g.
RUMEURS_JOUR) is absent from the uploaded sheet, the validation stage of
`charger_donnees_appels` rejects the file with the `ValueError` whose
message carries the joined list of missing columns, and that list
contains the absent column. -/
theorem chargement_rejette_colonnes_manquantes
    (colonnes : List String) (c : String)
    (hreq : c ∈ colonnes_requises) (habs : c ∉ colonnes) :
    c ∈ colonnes_manquantes colonnes ∧
      charger_donnees_appels_validation colonnes
        = .error ("Colonnes manquantes dans le fichier : "
            ++ String.intercalate ", " (colonnes_manquantes colonnes)) := by
  have hc : c ∈ colonnes_manquantes colonnes :=
    List.mem_filter.mpr ⟨hreq, by simpa using habs⟩
  refine ⟨hc, ?_⟩
  rw [charger_donnees_appels_validation, if_neg]
  intro h
  rw [h] at hc
  simp at hc

/-- Witness for C8: a sheet with every required column except
RUMEURS_JOUR is rejected and RUMEURS_JOUR is listed. -/
theorem chargement_rejette_colonnes_manquantes_temoin :
    "RUMEURS_JOUR" ∈ colonnes_manquantes
        [ "DATE", "CSU_JOUR", "PHARMACIE_JOUR", "STRUCTURE_REFERENCE_JOUR",
          "PROGRAMME_SANTE_JOUR", "PROBLEMATIQUE_SANTE_JOUR",
          "URGENCE_MEDICALE_JOUR", "GESTION_MALADIE_JOUR", "AUTRES_JOUR",
          "SOCIAL_JOUR", "SECURITAIRE_JOUR", "PSYCHO_JOUR",
          "SIGNAUX_SFE_JOUR", "AUTRES_SANTE_PUBLIQUE_JOUR",
          "CAS_SUSPECTS_JOUR", "FARCES_JOUR", "HARCELEMENTS_JOUR" ] ∧
      charger_donnees_appels_validation
        [ "DATE", "CSU_JOUR", "PHARMACIE_JOUR", "STRUCTURE_REFERENCE_JOUR",
          "PROGRAMME_SANTE_JOUR", "PROBLEMATIQUE_SANTE_JOUR",
          "URGENCE_MEDICALE_JOUR", "GESTION_MALADIE_JOUR", "AUTRES_JOUR",
          "SOCIAL_JOUR", "SECURITAIRE_JOUR", "PSYCHO_JOUR",
          "SIGNAUX_SFE_JOUR", "AUTRES_SANTE_PUBLIQUE_JOUR",
          "CAS_SUSPECTS_JOUR", "FARCES_JOUR", "HARCELEMENTS_JOUR" ]
        = .error ("Colonnes manquantes dans le fichier : "
            ++ String.intercalate ", " (colonnes_manquantes
              [ "DATE", "CSU_JOUR", "PHARMACIE_JOUR",
                "STRUCTURE_REFERENCE_JOUR", "PROGRAMME_SANTE_JOUR",
                "PROBLEMATIQUE_SANTE_JOUR", "URGENCE_MEDICALE_JOUR",
                "GESTION_MALADIE_JOUR", "AUTRES_JOUR", "SOCIAL_JOUR",
                "SECURITAIRE_JOUR", "PSYCHO_JOUR", "SIGNAUX_SFE_JOUR",
                "AUTRES_SANTE_PUBLIQUE_JOUR", "CAS_SUSPECTS_JOUR",
                "FARCES_JOUR", "HARCELEMENTS_JOUR" ])) :=
  chargement_rejette_colonnes_manquantes _ "RUMEURS_JOUR"
    (by decide) (by decide)

/-- C5 : in the output of `calculer_totaux_hebdomadaires`, the row of week
S9_2025 always sits strictly before the row of week S10_2025 — the sort is
numeric on the extracted week index, not lexicographic on the label. -/
theorem tri_hebdo_s9_avant_s10 (df : List Jour) :
    (∀ s ∈ df.map (fun j => j.semaine),
        ∃ h ∈ calculer_totaux_hebdomadaires df, h.semaine = s) ∧
    (∀ i j : Nat,
        ((calculer_totaux_hebdomadaires df)[i]?).map (fun h => h.semaine)
            = some "S9_2025" →
        ((calculer_totaux_hebdomadaires df)[j]?).map (fun h => h.semaine)
            = some "S10_2025" →
        i < j) := by
  constructor
  · intro s hs
    have hs' : s ∈ triParRel leEtiquette
        (uniqueParCle id (df.map (fun j => j.semaine))) := by
      rw [mem_triParRel]
      have hcle := cle_mem_uniqueParCle id (df.map (fun j => j.semaine)) s
      rw [List.map_id, List.map_id] at hcle
      exact hcle.mpr hs
    rw [calculer_totaux_hebdomadaires, lignesHebdo]
    exact ⟨_, (mem_triParRel _ _ _).mpr (List.mem_map_of_mem _ hs'), rfl⟩
  · intro i j h9 h10
    rcases Option.map_eq_some'.mp h9 with ⟨r9, hr9, hs9⟩
    rcases Option.map_eq_some'.mp h10 with ⟨r10, hr10, hs10⟩
    refine idx_lt_of_rel leNumeroSemaine _ ?_ i j r9 r10 hr9 hr10 ?_ ?_
    · rw [calculer_totaux_hebdomadaires]
      exact pairwise_triParRel _ leNumeroSemaine_total leNumeroSemaine_trans _
    · simp only [leNumeroSemaine, hs9, hs10]
      decide
    · simp only [leNumeroSemaine, hs9, hs10]
      decide

/-- Witness for C5: with S10_2025 listed first in the input, a weekly row
per label exists and the S9_2025 row still comes first. -/
theorem tri_hebdo_s9_avant_s10_temoin :
    (∃ h ∈ calculer_totaux_hebdomadaires dfDeuxSemaines,
        h.semaine = "S9_2025") ∧ (0 : Nat) < 1 :=
  ⟨(tri_hebdo_s9_avant_s10 dfDeuxSemaines).1 "S9_2025" (by decide),
   (tri_hebdo_s9_avant_s10 dfDeuxSemaines).2 0 1 (by decide) (by decide)⟩

/-- C7 : the spec scenario — two days of week S10_2025 with CSU_JOUR 10
and 20, all else zero — yields total 30, 2 days, daily average 15, and
the single non-zero category entry "Couverture Santé Universelle" at 30
(the whole returned dict is computed here). -/
theorem scenario_s10_totaux :
    calculer_totaux_semaine dfScenarioS10 "S10_2025" = .ok
      { semaine := "S10_2025", total := 30,
        categories := [("Couverture Santé Universelle", 30)],
        regroupements :=
          [ ("Renseignements Santé", 30), ("Assistances Médicales", 0),
            ("Assistances Psycho-Sociales", 0), ("Signaux d\x27Alerte", 0),
            ("Autres Appels", 0) ],
        nbJours := 2, moyenneJour := 15, dateDebut := some 1,
        dateFin := some 2 } := by
  norm_num +decide [calculer_totaux_semaine, dfScenarioS10, jourZero,
    CATEGORIES_APPELS, LABELS_CATEGORIES, colSomme, valeurCategorie,
    calculer_regroupements, REGROUPEMENTS, LABELS_REGROUPEMENTS,
    pyRound2, plancherRat, List.filter, List.filterMap, List.min?, List.max?]

/-- C9 : after the calendar merge, `charger_toutes_les_donnees` keeps
exactly one row per date — the first occurrence — before aggregating
(its weekly frame is computed from the deduplicated rows, so each date
counts once), no date is lost, and when duplicates were removed their
count is reported in the printed warnings. -/
theorem chargement_deduplique_dates (etiquetteIso : Nat → String)
    (appels : List Jour) (cal : List EntreeCalendrier) :
    ((uniqueParCle (fun j => j.date)
          (fusionCalendrier etiquetteIso appels cal)).Pairwise
        (fun a b => a.date ≠ b.date)) ∧
    (∀ j ∈ uniqueParCle (fun j => j.date)
          (fusionCalendrier etiquetteIso appels cal),
        (fusionCalendrier etiquetteIso appels cal).find?
            (fun y => y.date == j.date) = some j) ∧
    (∀ d : Nat,
        (∃ j ∈ fusionCalendrier etiquetteIso appels cal, j.date = d) ↔
        (∃ j ∈ uniqueParCle (fun j => j.date)
            (fusionCalendrier etiquetteIso appels cal), j.date = d)) ∧
    ((charger_toutes_les_donnees etiquetteIso appels cal).hebdomadaire
        = agregationHebdo (uniqueParCle (fun j => j.date)
            (fusionCalendrier etiquetteIso appels cal))) ∧
    ((fusionCalendrier etiquetteIso appels cal).length
        ≠ (uniqueParCle (fun j => j.date)
            (fusionCalendrier etiquetteIso appels cal)).length →
      ("⚠️ " ++ toString ((fusionCalendrier etiquetteIso appels cal).length
            - (uniqueParCle (fun j => j.date)
                (fusionCalendrier etiquetteIso appels cal)).length)
          ++ " doublons de dates supprimés")
        ∈ (charger_toutes_les_donnees etiquetteIso appels cal).journal) := by
  refine ⟨pairwise_cle_uniqueParCle _ _, ?_, ?_, rfl, ?_⟩
  · intro j hj
    exact find_uniqueParCle (fun j => j.date) _ j hj
  · intro d
    have := cle_mem_uniqueParCle (fun j => j.date)
      (fusionCalendrier etiquetteIso appels cal) d
    simp only [List.mem_map] at this
    constructor
    · rintro ⟨j, hj, rfl⟩
      rcases this.mpr ⟨j, hj, rfl⟩ with ⟨j', hj', hd⟩
      exact ⟨j', hj', hd⟩
    · rintro ⟨j, hj, rfl⟩
      rcases this.mp ⟨j, hj, rfl⟩ with ⟨j', hj', hd⟩
      exact ⟨j', hj', hd⟩
  · intro hne
    rw [charger_toutes_les_donnees]
    simp only []
    refine List.mem_append_right _ ?_
    rw [if_pos hne]
    exact List.mem_singleton.mpr rfl

/-- Witness for C9: a frame carrying one date twice loses exactly one row
and says so. -/
theorem chargement_deduplique_dates_temoin :
    ("⚠️ " ++ toString ((fusionCalendrier (fun _ => "S1_2025") dfDoublons []).length
          - (uniqueParCle (fun j => j.date)
              (fusionCalendrier (fun _ => "S1_2025") dfDoublons [])).length)
        ++ " doublons de dates supprimés")
      ∈ (charger_toutes_les_donnees (fun _ => "S1_2025") dfDoublons []).journal :=
  (chargement_deduplique_dates (fun _ => "S1_2025") dfDoublons []).2.2.2.2
    (by decide)

/-- Python round of the exact value 0. -/
theorem pyRound2_zero : pyRound2 0 = 0 := by
  norm_num [pyRound2, plancherRat]

/-- Python round of the exact value 100. -/
theorem pyRound2_cent : pyRound2 100 = 100 := by
  norm_num [pyRound2, plancherRat]

/-- Any per-category or per-group entry `calculer_variations` keeps has at
least one positive side, and reports exactly 100% whenever its baseline is
zero. -/
theorem entreeVariation_props (va vp : Int) (e : VariationEntree)
    (h : entreeVariation va vp = some e) :
    (0 < e.actuel ∨ 0 < e.precedent) ∧
      (e.precedent = 0 → e.variationRelative = 100) := by
  rw [entreeVariation] at h
  split at h
  · rename_i hg
    injection h with h
    subst h
    refine ⟨hg, fun h0 => ?_⟩
    show pyRound2 (if vp ≠ 0 then ((va - vp : ℚ) / (vp : ℚ)) * 100 else 100) = 100
    have h0' : vp = 0 := h0
    rw [if_neg (by simp [h0'])]
    exact pyRound2_cent
  · cases h

/-- Evaluation of `calculer_variations` on the zero-baseline frame. -/
theorem variations_dfBaseZero_eval :
    calculer_variations dfBaseZero "S2_2025" "S1_2025" = .ok variationsBaseZero := by
  norm_num +decide [calculer_variations, calculer_totaux_semaine, dfBaseZero,
    jourZero, CATEGORIES_APPELS, LABELS_CATEGORIES, colSomme, valeurCategorie,
    calculer_regroupements, REGROUPEMENTS, LABELS_REGROUPEMENTS, pyRound2,
    plancherRat, chercheDict, entreeVariation, variationsBaseZero,
    List.filter, List.filterMap, List.min?, List.max?, List.find?]

/-- C1 counterexample : on `dfBaseZero`, going from the all-zero week
S1_2025 to week S2_2025 (total 5), the relative variation of the total is
0%, not the 100% the claim requires for a zero baseline and a non-zero
current value. -/
theorem variations_base_zero_contre_exemple :
    ∃ v, calculer_variations dfBaseZero "S2_2025" "S1_2025" = .ok v ∧
      v.totalPrecedent = 0 ∧ v.totalActuel = 5 ∧ v.variationRelative = 0 ∧
      ¬ v.variationRelative = 100 :=
  ⟨variationsBaseZero, variations_dfBaseZero_eval, rfl, rfl, rfl,
    by norm_num [variationsBaseZero]⟩

/-- C1 (amended) : in `calculer_variations`, the zero-baseline special
case yields 100% for every per-category and per-group entry (entries with
both values zero are omitted from the dicts, and every kept entry has a
positive side), while the total's relative variation is the constant 0%
whenever the baseline total is zero — even when the current total is
non-zero. -/
theorem variations_base_zero_regle (df : List Jour) (sA sP : String)
    (v : Variations) (hok : calculer_variations df sA sP = .ok v) :
    (v.totalPrecedent = 0 → v.variationRelative = 0) ∧
    (∀ p ∈ v.categories,
        (0 < p.2.actuel ∨ 0 < p.2.precedent) ∧
          (p.2.precedent = 0 → p.2.variationRelative = 100)) ∧
    (∀ p ∈ v.regroupements,
        (0 < p.2.actuel ∨ 0 < p.2.precedent) ∧
          (p.2.precedent = 0 → p.2.variationRelative = 100)) := by
  rw [calculer_variations] at hok
  cases hA : calculer_totaux_semaine df sA with
  | error e => rw [hA] at hok; cases hok
  | ok ta =>
    cases hP : calculer_totaux_semaine df sP with
    | error e => rw [hA, hP] at hok; cases hok
    | ok tp =>
      rw [hA, hP] at hok
      injection hok with hok
      subst hok
      refine ⟨?_, ?_, ?_⟩
      · intro h0
        have h0' : tp.total = 0 := h0
        show pyRound2 (if tp.total ≠ 0 then
            (((ta.total - tp.total : Int) : ℚ) / (tp.total : ℚ)) * 100 else 0) = 0
        rw [if_neg (by simp [h0'])]
        exact pyRound2_zero
      · intro p hp
        rcases List.mem_filterMap.mp hp with ⟨c, _, hc⟩
        rcases Option.map_eq_some'.mp hc with ⟨e, he, rfl⟩
        exact entreeVariation_props _ _ _ he
      · intro p hp
        rcases List.mem_filterMap.mp hp with ⟨g, _, hg⟩
        rcases Option.map_eq_some'.mp hg with ⟨e, he, rfl⟩
        exact entreeVariation_props _ _ _ he

/-- Witness for the amended C1 on the zero-baseline frame. -/
theorem variations_base_zero_regle_temoin :
    calculer_variations dfBaseZero "S2_2025" "S1_2025" = .ok variationsBaseZero ∧
    ((variationsBaseZero.totalPrecedent = 0 →
        variationsBaseZero.variationRelative = 0) ∧
      (∀ p ∈ variationsBaseZero.categories,
          (0 < p.2.actuel ∨ 0 < p.2.precedent) ∧
            (p.2.precedent = 0 → p.2.variationRelative = 100)) ∧
      (∀ p ∈ variationsBaseZero.regroupements,
          (0 < p.2.actuel ∨ 0 < p.2.precedent) ∧
            (p.2.precedent = 0 → p.2.variationRelative = 100))) :=
  ⟨variations_dfBaseZero_eval,
    variations_base_zero_regle dfBaseZero "S2_2025" "S1_2025"
      variationsBaseZero variations_dfBaseZero_eval⟩

theorem pas_special_de_chiffre (c : Char) (h : c.isDigit = true) :
    c ≠ '_' ∧ c ≠ 'S' ∧ c ≠ 's' ∧ c ≠ '-' ∧ c ≠ '+' ∧ estEspacePython c = false := by
  have hne : ∀ x : Char, x.isDigit = false → c ≠ x := by
    intro x hx hcx
    subst hcx
    rw [h] at hx
    cases hx
  refine ⟨hne '_' (by decide), hne 'S' (by decide), hne 's' (by decide),
    hne '-' (by decide), hne '+' (by decide), ?_⟩
  simp only [estEspacePython, Bool.or_eq_false_iff]
  refine ⟨⟨⟨⟨⟨?_, ?_⟩, ?_⟩, ?_⟩, ?_⟩, ?_⟩ <;>
    simp [beq_eq_false_iff_ne] <;>
    first
      | exact hne ' ' (by decide)
      | exact hne '\t' (by decide)
      | exact hne '\n' (by decide)
      | exact hne '\r' (by decide)
      | exact hne '\x0B' (by decide)
      | exact hne '\x0C' (by decide)

theorem chaineChiffres_chiffres (k : Nat) : ∀ c ∈ chaineChiffres k, c.isDigit = true := by
  intro c hc
  rw [chaineChiffres, List.mem_reverse] at hc
  rcases List.mem_map.mp hc with ⟨d, hd, rfl⟩
  have hd10 : d < 10 := Nat.digits_lt_base (by norm_num) hd
  interval_cases d <;> decide



theorem lireChiffresAux_chiffres : ∀ (cs : List Char) (acc : Nat),
    (∀ c ∈ cs, c.isDigit = true) →
    lireChiffresAux acc cs
      = some (cs.foldl (fun a c => 10 * a + (c.toNat - 48)) acc) := by
  intro cs
  induction cs with
  | nil => intro acc _; simp [lireChiffresAux]
  | cons c cs ih =>
      intro acc h
      rw [lireChiffresAux, if_pos (h c (List.mem_cons_self c cs)), List.foldl_cons]
      exact ih _ (fun x hx => h x (List.mem_cons_of_mem c hx))

theorem lireChiffres_chiffres (cs : List Char) (hne : cs ≠ [])
    (h : ∀ c ∈ cs, c.isDigit = true) :
    lireChiffres? cs = some (valeurChiffres cs) := by
  cases cs with
  | nil => cases hne rfl
  | cons c cs => rw [lireChiffres?]; exact lireChiffresAux_chiffres _ _ h

theorem dropWhile_aucun {α : Type} (p : α → Bool) (cs : List α)
    (h : ∀ c ∈ cs, p c = false) : cs.dropWhile p = cs := by
  cases cs with
  | nil => rfl
  | cons c cs => rw [List.dropWhile_cons, if_neg (by simp [h c (List.mem_cons_self c cs)])]

theorem bande_chiffres (cs : List Char) (h : ∀ c ∈ cs, c.isDigit = true) :
    bandePython cs = cs := by
  rw [bandePython,
    dropWhile_aucun _ cs (fun c hc => (pas_special_de_chiffre c (h c hc)).2.2.2.2.2),
    dropWhile_aucun _ cs.reverse (fun c hc =>
      (pas_special_de_chiffre c (h c (List.mem_reverse.mp hc))).2.2.2.2.2),
    List.reverse_reverse]

theorem pyInt_chiffres (cs : List Char) (hne : cs ≠ [])
    (h : ∀ c ∈ cs, c.isDigit = true) :
    pyInt? (String.mk cs) = some ((valeurChiffres cs : Nat) : Int) := by
  have htl : (String.mk cs).toList = cs := rfl
  cases cs with
  | nil => cases hne rfl
  | cons c cs' =>
      have hc := pas_special_de_chiffre c (h c (List.mem_cons_self c cs'))
      rw [pyInt?, htl, bande_chiffres _ h]
      simp only []
      rw [if_neg hc.2.2.2.1, if_neg hc.2.2.2.2.1,
        lireChiffres_chiffres _ (by simp) h]
      rfl

theorem valeur_chaineChiffres (k : Nat) : valeurChiffres (chaineChiffres k) = k := by
  rw [valeurChiffres, chaineChiffres, List.foldl_reverse, List.foldr_map]
  have cle : ∀ (ds : List Nat), (∀ d ∈ ds, d < 10) →
      ds.foldr (fun d a => 10 * a + ((Nat.digitChar d).toNat - 48)) 0
        = Nat.ofDigits 10 ds := by
    intro ds
    induction ds with
    | nil => intro _; simp [Nat.ofDigits]
    | cons d ds ih =>
        intro h
        rw [List.foldr_cons, ih (fun x hx => h x (List.mem_cons_of_mem d hx)),
          Nat.ofDigits_cons]
        have hd : d < 10 := h d (List.mem_cons_self d ds)
        have hv : (Nat.digitChar d).toNat - 48 = d := by interval_cases d <;> decide
        rw [hv]
        omega
  rw [cle _ (fun d hd => Nat.digits_lt_base (by norm_num) hd), Nat.ofDigits_digits]

theorem takeWhile_avant_sep {α : Type} (p : α → Bool) (x : α) (hx : p x = false)
    (rest : List α) :
    ∀ (cs : List α), (∀ c ∈ cs, p c = true) →
      (cs ++ x :: rest).takeWhile p = cs := by
  intro cs
  induction cs with
  | nil => intro _; simp [List.takeWhile_cons, hx]
  | cons c cs ih =>
      intro h
      rw [List.cons_append, List.takeWhile_cons,
        if_pos (h c (List.mem_cons_self c cs)), ih (fun y hy => h y (List.mem_cons_of_mem c hy))]

theorem extraire_etiquette (k : Nat) (hk : 0 < k) (annee : String) :
    extraire_numero_semaine (etiquetteSemaine k annee) = (k : Int) := by
  have hd := chaineChiffres_chiffres k
  have hne : chaineChiffres k ≠ [] := by
    rw [chaineChiffres]
    simp [Nat.digits_ne_nil_iff_ne_zero, hk.ne']
  have htl : (etiquetteSemaine k annee).toList
      = 'S' :: (chaineChiffres k ++ '_' :: annee.toList) := by
    rw [etiquetteSemaine]
    simp [String.toList, String.data_append]
  rw [extraire_numero_semaine]
  simp only [htl]
  rw [if_pos (by simp)]
  rw [List.takeWhile_cons, if_pos (by decide),
    takeWhile_avant_sep _ '_' (by decide) _ _
      (fun c hc => by simp [(pas_special_de_chiffre c (hd c hc)).1])]
  rw [List.filter_cons, if_neg (by decide)]
  rw [List.filter_eq_self.mpr
    (fun c hc => by
      have hp := pas_special_de_chiffre c (hd c hc)
      simp [hp.2.1, hp.2.2.1])]
  rw [pyInt_chiffres _ hne hd, valeur_chaineChiffres]

/-- C10 : `extraire_numero_semaine` is total and reads only the part of
the label before the underscore — a well-formed label `S<k>_<y>` yields
`k` whatever the year `y`; a non-string argument, a label without
underscore, or a week part that does not parse as an int all yield 0
without raising — so the weekly ordering built on it compares week
numbers only and ignores the year: the row of S1_2025 precedes the row
of S50_2024. -/
theorem extraire_numero_semaine_totale :
    (∀ (k : Nat) (annee : String), 0 < k →
        extraire_numero_semaine (etiquetteSemaine k annee) = (k : Int)) ∧
    extraire_numero_semaine_py none = 0 ∧
    (∀ s : String, '_' ∉ s.toList → extraire_numero_semaine s = 0) ∧
    (∀ s : String,
        pyInt? (String.mk ((s.toList.takeWhile (fun c => !(c == '_'))).filter
          (fun c => !(c == 'S' || c == 's')))) = none →
        extraire_numero_semaine s = 0) ∧
    (∀ (df : List Jour) (i j : Nat),
        ((calculer_totaux_hebdomadaires df)[i]?).map (fun h => h.semaine)
            = some "S50_2024" →
        ((calculer_totaux_hebdomadaires df)[j]?).map (fun h => h.semaine)
            = some "S1_2025" →
        j < i) := by
  refine ⟨fun k annee hk => extraire_etiquette k hk annee, rfl, ?_, ?_, ?_⟩
  · intro s hs
    rw [extraire_numero_semaine, if_neg hs]
  · intro s hnone
    by_cases hmem : ('_' ∈ s.toList)
    · rw [extraire_numero_semaine, if_pos hmem]
      simp only [hnone]
    · rw [extraire_numero_semaine, if_neg hmem]
  · intro df i j h50 h1
    rcases Option.map_eq_some'.mp h50 with ⟨r50, hr50, hs50⟩
    rcases Option.map_eq_some'.mp h1 with ⟨r1, hr1, hs1⟩
    refine idx_lt_of_rel leNumeroSemaine _ ?_ j i r1 r50 hr1 hr50 ?_ ?_
    · rw [calculer_totaux_hebdomadaires]
      exact pairwise_triParRel _ leNumeroSemaine_total leNumeroSemaine_trans _
    · simp only [leNumeroSemaine, hs1, hs50]
      decide
    · simp only [leNumeroSemaine, hs1, hs50]
      decide

/-- Witness for C10: week 10 of 2025 parses to 10, and on a concrete
frame the row of S1_2025 precedes the row of S50_2024. -/
theorem extraire_numero_semaine_totale_temoin :
    extraire_numero_semaine (etiquetteSemaine 10 "2025") = (10 : Int) ∧
      (0 : Nat) < 1 :=
  ⟨extraire_numero_semaine_totale.1 10 "2025" (by norm_num),
   extraire_numero_semaine_totale.2.2.2.2 dfDeuxAnnees 1 0
     (by decide) (by decide)⟩

end Dashboard

